import Mathlib

/-!
Verification of the kubeconfig rewriting and merging core of
rancher-kubeconfig-proxy (pkg/kubeconfig) and of its configuration
validation (pkg/config), via a shallow embedding in Lean.

Modelling conventions:
* A Go `map[string]T` is modelled as an association list `List (String × T)`
  with first-match lookup (`List.lookup`).  Inserting an entry that must
  overwrite earlier ones is modelled by placing it in front of them, so the
  lookup semantics coincides with the Go map semantics.  The number of
  entries of the modelled map is the number of distinct keys (`mapSize`).
* Go map iteration order is unspecified.  `MergeConfigs` iterates over its
  input map, so the embedding takes the input as an explicit list of
  key/value pairs: one list per possible iteration order of the map.
* `ParseKubeconfig` delegates to the external library function
  `clientcmd.Load` (k8s.io/client-go), which is outside this repository.
  The codec is therefore passed in as an explicit `load` parameter; only
  the error wrapping added by this repository is modelled.
-/

/-- ClusterEntry models `api.Cluster`: the payload of a cluster entry.  The
core never inspects it, it is passed through unmodified. -/
structure ClusterEntry where
  server : String
  certificateAuthorityData : String
  deriving DecidableEq

/-- AuthInfoEntry models `api.AuthInfo`: opaque credential material, passed
through unmodified. -/
structure AuthInfoEntry where
  token : String
  deriving DecidableEq

/-- ContextEntry models `api.Context`: references to a cluster entry and an
auth-info (credential) entry, plus a namespace field that is passed through. -/
structure ContextEntry where
  cluster : String
  authInfo : String
  namespc : String
  deriving DecidableEq

/-- KConfig models `api.Config`: the kubeconfig entity model.  `preferences`
and `extensions` are opaque passthrough data, modelled as a single opaque
string field. -/
structure KConfig where
  kind : String
  apiVersion : String
  clusters : List (String × ClusterEntry)
  contexts : List (String × ContextEntry)
  authInfos : List (String × AuthInfoEntry)
  currentContext : String
  preferences : String
  deriving DecidableEq

/-- NewConfig models `api.NewConfig()`: a fresh configuration with empty maps
and empty current context. -/
def NewConfig : KConfig :=
  { kind := "", apiVersion := "", clusters := [], contexts := [],
    authInfos := [], currentContext := "", preferences := "" }

/-- mapSize is the number of entries of a modelled Go map: the number of
distinct keys of the association list. -/
def mapSize {α : Type} (m : List (String × α)) : Nat :=
  (m.map Prod.fst).dedup.length

/-- Generator models `kubeconfig.Generator`; `pfx` is its `prefix` field
(the cluster-name prefix). -/
structure Generator where
  pfx : String
  deriving DecidableEq

/-- renameName is the two-case renaming rule used by `ApplyPrefix` for
cluster names and context names (config.go lines 127-134 and 143-147):
the own cluster name goes to the canonical `prefix + clusterName`, any
other name `n` goes to `prefix + n`. -/
def renameName (pfx clusterName n : String) : String :=
  if n = clusterName then pfx ++ clusterName else pfx ++ n

/-- rewriteContextEntry is the body of the context loop of `ApplyPrefix`
(config.go lines 149-164): the cluster reference is rewritten with the
two-case rule only when it names an existing cluster entry of the input,
and a non-empty auth-info reference is always prefixed. -/
def rewriteContextEntry (pfx clusterName : String) (config : KConfig)
    (context : ContextEntry) : ContextEntry :=
  let newCluster :=
    if (config.clusters.lookup context.cluster).isSome then
      (if context.cluster = clusterName then pfx ++ clusterName
       else pfx ++ context.cluster)
    else context.cluster
  let newAuthInfo :=
    if context.authInfo ≠ "" then pfx ++ context.authInfo else context.authInfo
  { cluster := newCluster, authInfo := newAuthInfo, namespc := context.namespc }

/-- ApplyPrefix models `Generator.ApplyPrefix` (config.go lines 114-189):
returns the input unchanged when the prefix is empty, otherwise renames
all cluster, context and auth-info names and rewrites the references. -/
def Generator.ApplyPrefix (g : Generator) (config : KConfig)
    (clusterName : String) : KConfig :=
  if g.pfx = "" then config
  else
    { kind := config.kind
      apiVersion := config.apiVersion
      clusters := config.clusters.map
        (fun p => (renameName g.pfx clusterName p.1, p.2))
      contexts := config.contexts.map
        (fun p => (renameName g.pfx clusterName p.1,
                   rewriteContextEntry g.pfx clusterName config p.2))
      authInfos := config.authInfos.map (fun p => (g.pfx ++ p.1, p.2))
      currentContext :=
        if config.currentContext ≠ "" then
          (if config.currentContext = clusterName then g.pfx ++ clusterName
           else g.pfx ++ config.currentContext)
        else config.currentContext
      preferences := config.preferences }

/-- ParseKubeconfig models `Generator.ParseKubeconfig` (config.go lines
104-111): it delegates to the external `clientcmd.Load` (the `load`
parameter) and wraps a failure with a message. -/
def ParseKubeconfig (load : String → Except String KConfig)
    (data : String) : Except String KConfig :=
  match load data with
  | Except.error e => Except.error ("failed to parse kubeconfig: " ++ e)
  | Except.ok config => Except.ok config

/-- mergeInto models one iteration of the merge loop body (config.go lines
206-216): every entry of the prefixed document is written into the merged
maps, overwriting entries with the same key.  Writing is modelled by
prepending, so lookup finds the newest entry first. -/
def mergeInto (merged : KConfig) (prefixedConfig : KConfig) : KConfig :=
  { merged with
    clusters := prefixedConfig.clusters ++ merged.clusters
    contexts := prefixedConfig.contexts ++ merged.contexts
    authInfos := prefixedConfig.authInfos ++ merged.authInfos }

/-- mergeLoop models the loop of `MergeConfigs` (config.go lines 196-217)
over a fixed iteration order of the input map: parse each document,
aborting the whole merge on the first parse failure, otherwise apply the
prefix and write its entries into the accumulator. -/
def Generator.mergeLoop (g : Generator) (load : String → Except String KConfig) :
    KConfig → List (String × String) → Except String KConfig
  | merged, [] => Except.ok merged
  | merged, (clusterName, kubeconfigData) :: rest =>
    match ParseKubeconfig load kubeconfigData with
    | Except.error e =>
      Except.error ("failed to parse kubeconfig for cluster " ++ clusterName
        ++ ": " ++ e)
    | Except.ok config =>
      g.mergeLoop load (mergeInto merged (g.ApplyPrefix config clusterName)) rest

/-- MergeConfigs models `Generator.MergeConfigs` (config.go lines 193-220):
starting from `api.NewConfig()`, merge every input document in the given
iteration order. -/
def Generator.MergeConfigs (g : Generator) (load : String → Except String KConfig)
    (clusterKubeconfigs : List (String × String)) : Except String KConfig :=
  g.mergeLoop load NewConfig clusterKubeconfigs

/-- ValidDoc is the referential-integrity invariant of the spec: every
non-empty cluster reference of a context names an existing cluster entry,
and every non-empty auth-info reference names an existing auth-info entry. -/
def ValidDoc (c : KConfig) : Prop :=
  ∀ p ∈ c.contexts,
    ((p : String × ContextEntry).2.cluster ≠ "" →
      (c.clusters.lookup p.2.cluster).isSome = true) ∧
    (p.2.authInfo ≠ "" → (c.authInfos.lookup p.2.authInfo).isSome = true)

instance (c : KConfig) : Decidable (ValidDoc c) := by
  unfold ValidDoc
  infer_instance

/-- AppConfig models `config.Config` (pkg/config/config.go). -/
structure AppConfig where
  rancherURL : String
  accessKey : String
  secretKey : String
  token : String
  clusterPfx : String
  outputPath : String
  insecureSkipTLSVerify : Bool
  caCert : String
  deriving DecidableEq

/-- trimSuffixSlash models `strings.TrimSuffix(url, "/")`: removes one
trailing slash when present. -/
def trimSuffixSlash (s : String) : String :=
  match s.data.getLast? with
  | some c => if c = '/' then String.mk s.data.dropLast else s
  | none => s

/-- splitOnceChar splits a character list at the first occurrence of the
separator character, returning the parts before and after it, or `none`
when the separator does not occur. -/
def splitOnceChar (sep : Char) : List Char → Option (List Char × List Char)
  | [] => none
  | c :: t =>
    if c = sep then some ([], t)
    else (splitOnceChar sep t).map (fun p => (c :: p.1, p.2))

/-- splitN2 models Go `strings.SplitN(s, ":", 2)`: split at the first
occurrence of the one-character separator only, keeping the rest intact. -/
def splitN2 (s : String) (sep : Char) : List String :=
  match splitOnceChar sep s.data with
  | none => [s]
  | some (a, b) => [String.mk a, String.mk b]

/-- validate models `Config.Validate` (config.go lines 38-62).  The Go
method mutates the receiver and returns an error; the embedding returns
the updated configuration or the error message. -/
def AppConfig.validate (c : AppConfig) : Except String AppConfig :=
  if c.rancherURL = "" then Except.error "rancher URL is required"
  else
    let c1 := { c with rancherURL := trimSuffixSlash c.rancherURL }
    if c1.token = "" ∧ (c1.accessKey = "" ∨ c1.secretKey = "") then
      Except.error "either token or access_key/secret_key pair is required"
    else if c1.token ≠ "" then
      match splitN2 c1.token ':' with
      | [a, b] => Except.ok { c1 with accessKey := a, secretKey := b }
      | _ => Except.error "invalid token format, expected access_key:secret_key"
    else Except.ok c1

/-- lastWins describes the merge policy for one key of one map: the later
entry when the later document defines the key, the earlier entry otherwise. -/
def lastWins {α : Type} (earlier later : Option α) : Option α :=
  match later with
  | some v => some v
  | none => earlier

/-- mergeTwoDocs is the merged configuration that `MergeConfigs` builds for
a two-document input whose documents parse to `d1` and `d2`. -/
def mergeTwoDocs (g : Generator) (d1 : KConfig) (n1 : String)
    (d2 : KConfig) (n2 : String) : KConfig :=
  mergeInto (mergeInto NewConfig (g.ApplyPrefix d1 n1)) (g.ApplyPrefix d2 n2)

/-- mergeFailed observes whether a merge result is an error. -/
def mergeFailed (r : Except String KConfig) : Bool :=
  match r with
  | Except.error _ => true
  | Except.ok _ => false

/-- observeDefault projects the observable content of a configuration at
key "default": the size of each map and the entry stored under "default"
in each map. -/
def observeDefault (m : KConfig) :
    Nat × Option ClusterEntry × Nat × Option ContextEntry × Nat × Option AuthInfoEntry :=
  (mapSize m.clusters, m.clusters.lookup "default", mapSize m.contexts,
   m.contexts.lookup "default", mapSize m.authInfos, m.authInfos.lookup "default")

/-! Concrete fixtures: small documents and a concrete codec table used to
instantiate the claims on explicit inputs. -/

/-- cvA is a concrete cluster entry. -/
def cvA : ClusterEntry := { server := "https://a.example", certificateAuthorityData := "" }

/-- cvB is a concrete cluster entry different from cvA. -/
def cvB : ClusterEntry := { server := "https://b.example", certificateAuthorityData := "" }

/-- aiA is a concrete credential entry. -/
def aiA : AuthInfoEntry := { token := "tokA" }

/-- aiB is a concrete credential entry different from aiA. -/
def aiB : AuthInfoEntry := { token := "tokB" }

/-- docDefaultA is a document whose three maps all use the key "default";
it collides with docDefaultB on every map. -/
def docDefaultA : KConfig :=
  { kind := "Config", apiVersion := "v1",
    clusters := [("default", cvA)],
    contexts := [("default", { cluster := "default", authInfo := "default", namespc := "nsA" })],
    authInfos := [("default", aiA)],
    currentContext := "default", preferences := "" }

/-- docDefaultB is a second document keyed "default" everywhere, with entry
values different from docDefaultA. -/
def docDefaultB : KConfig :=
  { kind := "Config", apiVersion := "v1",
    clusters := [("default", cvB)],
    contexts := [("default", { cluster := "default", authInfo := "default", namespc := "nsB" })],
    authInfos := [("default", aiB)],
    currentContext := "default", preferences := "" }

/-- docC1 is the canonical-naming example document: cluster and context
both named "c1", with the active context set to "c1". -/
def docC1 : KConfig :=
  { kind := "Config", apiVersion := "v1",
    clusters := [("c1", cvA)],
    contexts := [("c1", { cluster := "c1", authInfo := "", namespc := "" })],
    authInfos := [],
    currentContext := "c1", preferences := "" }

/-- docX is a valid document with keys disjoint from docY. -/
def docX : KConfig :=
  { kind := "Config", apiVersion := "v1",
    clusters := [("x", cvA)],
    contexts := [("x", { cluster := "x", authInfo := "ux", namespc := "" })],
    authInfos := [("ux", aiA)],
    currentContext := "x", preferences := "" }

/-- docY is a valid document with keys disjoint from docX. -/
def docY : KConfig :=
  { kind := "Config", apiVersion := "v1",
    clusters := [("y", cvB)],
    contexts := [("y", { cluster := "y", authInfo := "uy", namespc := "" })],
    authInfos := [("uy", aiB)],
    currentContext := "y", preferences := "" }

/-- docDangling is a document that violates referential integrity: its only
context references a cluster and a credential that do not exist. -/
def docDangling : KConfig :=
  { kind := "Config", apiVersion := "v1",
    clusters := [],
    contexts := [("ctx1", { cluster := "ghost", authInfo := "ghostUser", namespc := "" })],
    authInfos := [],
    currentContext := "", preferences := "" }

/-- loadTbl is a concrete codec: a finite table from raw document text to
parsed documents, failing on every other input (as `clientcmd.Load` fails
on text that is not a well-formed kubeconfig). -/
def loadTbl : String → Except String KConfig := fun s =>
  if s = "sA" then Except.ok docDefaultA
  else if s = "sB" then Except.ok docDefaultB
  else if s = "sC1" then Except.ok docC1
  else if s = "sX" then Except.ok docX
  else if s = "sY" then Except.ok docY
  else Except.error "boom"

/-- mergedC1 is the configuration `MergeConfigs` produces for the single
input document docC1 under prefix "prod-". -/
def mergedC1 : KConfig :=
  { kind := "", apiVersion := "",
    clusters := [("prod-c1", cvA)],
    contexts := [("prod-c1", { cluster := "prod-c1", authInfo := "", namespc := "" })],
    authInfos := [],
    currentContext := "", preferences := "" }

/-- cfgColonOnly is an application configuration whose token is the bare
separator, i.e. both token parts are empty. -/
def cfgColonOnly : AppConfig :=
  { rancherURL := "https://r", accessKey := "", secretKey := "", token := ":",
    clusterPfx := "", outputPath := "", insecureSkipTLSVerify := false,
    caCert := "" }

/-- cfgMultiSep is an application configuration whose token contains two
separators. -/
def cfgMultiSep : AppConfig :=
  { rancherURL := "https://r", accessKey := "", secretKey := "", token := "a:b:c",
    clusterPfx := "", outputPath := "", insecureSkipTLSVerify := false,
    caCert := "" }

/-! Helper lemmas about strings and association lists. -/

theorem string_append_left_cancel {p a b : String} (h : p ++ a = p ++ b) :
    a = b := by
  have hd := congrArg String.data h
  simp only [String.data_append] at hd
  exact String.ext (List.append_cancel_left hd)

theorem renameName_injective (pfx clusterName : String) :
    Function.Injective (renameName pfx clusterName) := by
  intro a b hab
  unfold renameName at hab
  by_cases ha : a = clusterName <;> by_cases hb : b = clusterName
  · rw [ha, hb]
  · rw [if_pos ha, if_neg hb] at hab
    exact absurd (string_append_left_cancel hab).symm hb
  · rw [if_neg ha, if_pos hb] at hab
    exact absurd (string_append_left_cancel hab) ha
  · rw [if_neg ha, if_neg hb] at hab
    exact string_append_left_cancel hab

theorem append_left_injective (pfx : String) :
    Function.Injective (fun s => pfx ++ s) := by
  intro a b hab
  exact string_append_left_cancel hab

theorem lookup_cons {α : Type} (k a : String) (v : α) (t : List (String × α)) :
    List.lookup k ((a, v) :: t) = if k = a then some v else List.lookup k t := by
  simp only [List.lookup]
  rcases eq_or_ne k a with h | h
  · simp [h]
  · simp [h, beq_false_of_ne h]

theorem lookup_map_inj {α β : Type} (f : String → String)
    (hf : Function.Injective f) (h : α → β) (l : List (String × α)) (k : String) :
    (l.map (fun p => (f p.1, h p.2))).lookup (f k) = (l.lookup k).map h := by
  induction l with
  | nil => simp
  | cons hd tl ih =>
    obtain ⟨a, v⟩ := hd
    rcases eq_or_ne k a with hk | hk
    · subst hk; simp [List.lookup]
    · have hfk : (f k == f a) = false := beq_false_of_ne (fun he => hk (hf he))
      simp [List.lookup, hfk, beq_false_of_ne hk, ih]

theorem lookup_append {α : Type} (l1 l2 : List (String × α)) (k : String) :
    (l1 ++ l2).lookup k =
      match l1.lookup k with
      | some v => some v
      | none => l2.lookup k := by
  induction l1 with
  | nil => simp
  | cons hd tl ih =>
    obtain ⟨a, v⟩ := hd
    rcases eq_or_ne k a with hk | hk
    · subst hk; simp [List.lookup]
    · simp [List.lookup, beq_false_of_ne hk, ih]

theorem lookup_append_left {α : Type} {l1 : List (String × α)}
    (l2 : List (String × α)) {k : String} {v : α}
    (h : l1.lookup k = some v) : (l1 ++ l2).lookup k = some v := by
  rw [lookup_append, h]

theorem lookup_append_right {α : Type} {l1 : List (String × α)}
    (l2 : List (String × α)) {k : String}
    (h : l1.lookup k = none) : (l1 ++ l2).lookup k = l2.lookup k := by
  rw [lookup_append, h]

theorem lookup_isSome_append {α : Type} (l1 l2 : List (String × α)) (k : String) :
    ((l1 ++ l2).lookup k).isSome = ((l1.lookup k).isSome || (l2.lookup k).isSome) := by
  rw [lookup_append]
  cases h : l1.lookup k <;> simp

theorem mem_keys_of_lookup_isSome {α : Type} {l : List (String × α)} {k : String}
    (h : (l.lookup k).isSome = true) : k ∈ l.map Prod.fst := by
  induction l with
  | nil => simp [List.lookup] at h
  | cons hd tl ih =>
    obtain ⟨a, v⟩ := hd
    rcases eq_or_ne k a with hk | hk
    · subst hk; simp
    · rw [lookup_cons, if_neg hk] at h
      simp [ih h]

theorem lookup_eq_none_of_not_mem_keys {α : Type} {l : List (String × α)}
    {k : String} (h : k ∉ l.map Prod.fst) : l.lookup k = none := by
  induction l with
  | nil => simp
  | cons hd tl ih =>
    obtain ⟨a, v⟩ := hd
    simp only [List.map_cons, List.mem_cons, not_or] at h
    rw [lookup_cons, if_neg h.1]
    exact ih h.2

theorem keys_map_pair {α β : Type} (f : String → String) (h : α → β)
    (l : List (String × α)) :
    (l.map (fun p => (f p.1, h p.2))).map Prod.fst = (l.map Prod.fst).map f := by
  induction l with
  | nil => rfl
  | cons hd tl ih => simp [ih]

theorem keys_map_rename {α : Type} (f : String → String) (l : List (String × α)) :
    (l.map (fun p => (f p.1, p.2))).map Prod.fst = (l.map Prod.fst).map f := by
  induction l with
  | nil => rfl
  | cons hd tl ih => simp [ih]

/-! Lemmas about ApplyPrefix. -/

theorem renameName_empty (clusterName n : String) :
    renameName "" clusterName n = n := by
  unfold renameName
  by_cases h : n = clusterName
  · rw [if_pos h, h]; simp
  · rw [if_neg h]; simp

theorem rewriteContextEntry_empty (clusterName : String) (doc : KConfig)
    (context : ContextEntry) :
    rewriteContextEntry "" clusterName doc context = context := by
  obtain ⟨cc, ai, ns⟩ := context
  unfold rewriteContextEntry
  simp only
  split_ifs with h1 h2 h3 <;> simp_all

theorem applyPrefix_clusters_eq {g : Generator} (hp : g.pfx ≠ "")
    (doc : KConfig) (clusterName : String) :
    (g.ApplyPrefix doc clusterName).clusters =
      doc.clusters.map (fun p => (renameName g.pfx clusterName p.1, p.2)) := by
  unfold Generator.ApplyPrefix
  rw [if_neg hp]

theorem applyPrefix_contexts_eq {g : Generator} (hp : g.pfx ≠ "")
    (doc : KConfig) (clusterName : String) :
    (g.ApplyPrefix doc clusterName).contexts =
      doc.contexts.map (fun p => (renameName g.pfx clusterName p.1,
        rewriteContextEntry g.pfx clusterName doc p.2)) := by
  unfold Generator.ApplyPrefix
  rw [if_neg hp]

theorem applyPrefix_authInfos_eq {g : Generator} (hp : g.pfx ≠ "")
    (doc : KConfig) (clusterName : String) :
    (g.ApplyPrefix doc clusterName).authInfos =
      doc.authInfos.map (fun p => (g.pfx ++ p.1, p.2)) := by
  unfold Generator.ApplyPrefix
  rw [if_neg hp]

theorem applyPrefix_clusters_lookup (g : Generator) (doc : KConfig)
    (clusterName n : String) :
    (g.ApplyPrefix doc clusterName).clusters.lookup
        (renameName g.pfx clusterName n) = doc.clusters.lookup n := by
  by_cases hp : g.pfx = ""
  · unfold Generator.ApplyPrefix
    rw [if_pos hp, hp, renameName_empty]
  · rw [applyPrefix_clusters_eq hp]
    have := lookup_map_inj (renameName g.pfx clusterName)
      (renameName_injective g.pfx clusterName) (fun v => v) doc.clusters n
    simpa using this

theorem applyPrefix_contexts_lookup (g : Generator) (doc : KConfig)
    (clusterName n : String) :
    (g.ApplyPrefix doc clusterName).contexts.lookup
        (renameName g.pfx clusterName n) =
      (doc.contexts.lookup n).map (rewriteContextEntry g.pfx clusterName doc) := by
  by_cases hp : g.pfx = ""
  · unfold Generator.ApplyPrefix
    rw [if_pos hp, hp, renameName_empty]
    cases h : doc.contexts.lookup n <;> simp [rewriteContextEntry_empty]
  · rw [applyPrefix_contexts_eq hp]
    exact lookup_map_inj (renameName g.pfx clusterName)
      (renameName_injective g.pfx clusterName)
      (rewriteContextEntry g.pfx clusterName doc) doc.contexts n

theorem applyPrefix_authInfos_lookup (g : Generator) (doc : KConfig)
    (clusterName m : String) :
    (g.ApplyPrefix doc clusterName).authInfos.lookup (g.pfx ++ m) =
      doc.authInfos.lookup m := by
  by_cases hp : g.pfx = ""
  · unfold Generator.ApplyPrefix
    rw [if_pos hp, hp]
    simp
  · rw [applyPrefix_authInfos_eq hp]
    have := lookup_map_inj (fun s => g.pfx ++ s)
      (append_left_injective g.pfx) (fun v => v) doc.authInfos m
    simpa using this

theorem applyPrefix_valid (g : Generator) (doc : KConfig) (clusterName : String)
    (hv : ValidDoc doc) : ValidDoc (g.ApplyPrefix doc clusterName) := by
  by_cases hp : g.pfx = ""
  · unfold Generator.ApplyPrefix
    rw [if_pos hp]
    exact hv
  · intro p hmem
    rw [applyPrefix_contexts_eq hp] at hmem
    obtain ⟨q, hq, hpq⟩ := List.mem_map.mp hmem
    obtain ⟨hvc, hva⟩ := hv q hq
    subst hpq
    have hrc : (rewriteContextEntry g.pfx clusterName doc q.2).cluster =
        if (doc.clusters.lookup q.2.cluster).isSome then
          renameName g.pfx clusterName q.2.cluster
        else q.2.cluster := rfl
    have hra : (rewriteContextEntry g.pfx clusterName doc q.2).authInfo =
        if q.2.authInfo ≠ "" then g.pfx ++ q.2.authInfo else q.2.authInfo := rfl
    constructor
    · intro hne
      by_cases hex : (doc.clusters.lookup q.2.cluster).isSome = true
      · rw [hrc, if_pos hex, applyPrefix_clusters_lookup]
        exact hex
      · rw [hrc, if_neg hex] at hne
        exact absurd (hvc hne) hex
    · intro hne
      by_cases hai : q.2.authInfo = ""
      · rw [hra, if_neg (fun h => h hai)] at hne
        exact absurd hai hne
      · rw [hra, if_pos hai] at hne ⊢
        rw [applyPrefix_authInfos_lookup]
        exact hva hai

theorem applyPrefix_cluster_keys_nodup (g : Generator) (doc : KConfig)
    (clusterName : String) (h : (doc.clusters.map Prod.fst).Nodup) :
    ((g.ApplyPrefix doc clusterName).clusters.map Prod.fst).Nodup := by
  by_cases hp : g.pfx = ""
  · unfold Generator.ApplyPrefix
    rw [if_pos hp]
    exact h
  · rw [applyPrefix_clusters_eq hp, keys_map_rename]
    exact h.map (renameName_injective g.pfx clusterName)

theorem applyPrefix_context_keys_nodup (g : Generator) (doc : KConfig)
    (clusterName : String) (h : (doc.contexts.map Prod.fst).Nodup) :
    ((g.ApplyPrefix doc clusterName).contexts.map Prod.fst).Nodup := by
  by_cases hp : g.pfx = ""
  · unfold Generator.ApplyPrefix
    rw [if_pos hp]
    exact h
  · rw [applyPrefix_contexts_eq hp, keys_map_pair]
    exact h.map (renameName_injective g.pfx clusterName)

theorem applyPrefix_authInfo_keys_nodup (g : Generator) (doc : KConfig)
    (clusterName : String) (h : (doc.authInfos.map Prod.fst).Nodup) :
    ((g.ApplyPrefix doc clusterName).authInfos.map Prod.fst).Nodup := by
  by_cases hp : g.pfx = ""
  · unfold Generator.ApplyPrefix
    rw [if_pos hp]
    exact h
  · rw [applyPrefix_authInfos_eq hp, keys_map_rename]
    exact h.map (append_left_injective g.pfx)

/-! Lemmas about MergeConfigs. -/

theorem mergeLoop_currentContext (g : Generator)
    (load : String → Except String KConfig) :
    ∀ (input : List (String × String)) (merged cfg : KConfig),
      g.mergeLoop load merged input = Except.ok cfg →
      cfg.currentContext = merged.currentContext := by
  intro input
  induction input with
  | nil =>
    intro merged cfg h
    simp only [Generator.mergeLoop] at h
    cases h
    rfl
  | cons hd tl ih =>
    intro merged cfg h
    obtain ⟨n, s⟩ := hd
    simp only [Generator.mergeLoop] at h
    cases hp : ParseKubeconfig load s with
    | error e => rw [hp] at h; cases h
    | ok c =>
      rw [hp] at h
      exact ih (mergeInto merged (g.ApplyPrefix c n)) cfg h

theorem mergeLoop_error_of_load_error (g : Generator)
    (load : String → Except String KConfig) :
    ∀ (input : List (String × String)) (merged : KConfig) (n s e : String),
      (n, s) ∈ input → load s = Except.error e →
      ∃ msg, g.mergeLoop load merged input = Except.error msg := by
  intro input
  induction input with
  | nil =>
    intro merged n s e hmem _
    cases hmem
  | cons hd tl ih =>
    intro merged n s e hmem hload
    obtain ⟨n0, s0⟩ := hd
    rcases List.mem_cons.mp hmem with heq | htl
    · injection heq with hn hs
      subst hn
      subst hs
      refine ⟨"failed to parse kubeconfig for cluster " ++ n ++ ": " ++
        ("failed to parse kubeconfig: " ++ e), ?_⟩
      simp only [Generator.mergeLoop, ParseKubeconfig, hload]
    · simp only [Generator.mergeLoop]
      cases hp : ParseKubeconfig load s0 with
      | error e0 => exact ⟨_, rfl⟩
      | ok c => exact ih _ n s e htl hload

theorem lookup_append_comm_of_disjoint {α : Type} {l1 l2 : List (String × α)}
    (hd : ∀ a ∈ l1.map Prod.fst, a ∉ l2.map Prod.fst) (k : String) :
    (l1 ++ l2).lookup k = (l2 ++ l1).lookup k := by
  rw [lookup_append, lookup_append]
  cases h1 : l1.lookup k with
  | some v =>
    have hk1 : k ∈ l1.map Prod.fst :=
      mem_keys_of_lookup_isSome (by rw [h1]; rfl)
    have h2 : l2.lookup k = none :=
      lookup_eq_none_of_not_mem_keys (hd k hk1)
    rw [h2]
  | none =>
    cases h2 : l2.lookup k <;> simp

theorem lookup_append_eq_lastWins {α : Type} (l1 l2 : List (String × α))
    (k : String) :
    (l2 ++ l1).lookup k = lastWins (l1.lookup k) (l2.lookup k) := by
  rw [lookup_append]
  cases l2.lookup k <;> rfl

theorem mergeTwoDocs_clusters (g : Generator) (d1 : KConfig) (n1 : String)
    (d2 : KConfig) (n2 : String) :
    (mergeTwoDocs g d1 n1 d2 n2).clusters =
      (g.ApplyPrefix d2 n2).clusters ++ (g.ApplyPrefix d1 n1).clusters := by
  simp [mergeTwoDocs, mergeInto, NewConfig]

theorem mergeTwoDocs_contexts (g : Generator) (d1 : KConfig) (n1 : String)
    (d2 : KConfig) (n2 : String) :
    (mergeTwoDocs g d1 n1 d2 n2).contexts =
      (g.ApplyPrefix d2 n2).contexts ++ (g.ApplyPrefix d1 n1).contexts := by
  simp [mergeTwoDocs, mergeInto, NewConfig]

theorem mergeTwoDocs_authInfos (g : Generator) (d1 : KConfig) (n1 : String)
    (d2 : KConfig) (n2 : String) :
    (mergeTwoDocs g d1 n1 d2 n2).authInfos =
      (g.ApplyPrefix d2 n2).authInfos ++ (g.ApplyPrefix d1 n1).authInfos := by
  simp [mergeTwoDocs, mergeInto, NewConfig]

theorem mergeConfigs_two (g : Generator) (load : String → Except String KConfig)
    (n1 s1 n2 s2 : String) (d1 d2 : KConfig)
    (h1 : load s1 = Except.ok d1) (h2 : load s2 = Except.ok d2) :
    g.MergeConfigs load [(n1, s1), (n2, s2)] =
      Except.ok (mergeTwoDocs g d1 n1 d2 n2) := by
  simp [Generator.MergeConfigs, Generator.mergeLoop, ParseKubeconfig, h1, h2,
    mergeTwoDocs]

/-! Claim theorems. -/

/-- C7: rewriting with the empty prefix is the identity transform, for every
document and own-cluster-name: ApplyPrefix with an empty prefix returns the
input document unchanged. -/
theorem applyPrefix_empty_identity (doc : KConfig) (clusterName : String) :
    (Generator.mk "").ApplyPrefix doc clusterName = doc := by
  unfold Generator.ApplyPrefix
  rw [if_pos rfl]

/-- C6: for every document, prefix and own-cluster-name, ApplyPrefix moves
the cluster entry stored at name n to the name given by the two-case rule
(renameName: prefix + own name when n equals the own name, prefix + n
otherwise), and moves the context entry stored at name n to the same
two-case name, with its references rewritten by rewriteContextEntry; in
particular, with own name "c1" and prefix "prod-", cluster entry "c1"
becomes "prod-c1" and the context originally named "c1" becomes "prod-c1"
with its cluster reference updated to "prod-c1". -/
theorem applyPrefix_rename_rule :
    (∀ (g : Generator) (doc : KConfig) (clusterName n : String),
        (g.ApplyPrefix doc clusterName).clusters.lookup
            (renameName g.pfx clusterName n) = doc.clusters.lookup n
      ∧ (g.ApplyPrefix doc clusterName).contexts.lookup
            (renameName g.pfx clusterName n) =
          (doc.contexts.lookup n).map (rewriteContextEntry g.pfx clusterName doc))
    ∧ ((Generator.mk "prod-").ApplyPrefix docC1 "c1").clusters.lookup "prod-c1"
        = some cvA
    ∧ ((Generator.mk "prod-").ApplyPrefix docC1 "c1").contexts.lookup "prod-c1"
        = some { cluster := "prod-c1", authInfo := "", namespc := "" } := by
  refine ⟨fun g doc clusterName n =>
    ⟨applyPrefix_clusters_lookup g doc clusterName n,
     applyPrefix_contexts_lookup g doc clusterName n⟩, rfl, rfl⟩

/-- C3: for every document satisfying the referential-integrity invariant
and every prefix and own-cluster-name, the rewritten document satisfies the
invariant again. -/
theorem applyPrefix_preserves_referential_integrity (g : Generator)
    (doc : KConfig) (clusterName : String) (hv : ValidDoc doc) :
    ValidDoc (g.ApplyPrefix doc clusterName) :=
  applyPrefix_valid g doc clusterName hv

/-- Witness for C3 at a concrete valid document and non-empty prefix. -/
theorem applyPrefix_preserves_referential_integrity_witness :
    ValidDoc docC1 ∧ ValidDoc ((Generator.mk "prod-").ApplyPrefix docC1 "c1") :=
  ⟨by decide,
   applyPrefix_preserves_referential_integrity (Generator.mk "prod-") docC1 "c1"
     (by decide)⟩

/-- C10: with a non-empty prefix, a context whose cluster reference does not
name an existing cluster entry keeps that reference un-prefixed, while its
non-empty credential reference is prefixed even when no such credential
entry exists: the rewritten entry appears in the output with the cluster
field unchanged and the authInfo field prefixed. -/
theorem applyPrefix_dangling_reference_asymmetry (g : Generator)
    (doc : KConfig) (clusterName name : String) (context : ContextEntry)
    (hp : g.pfx ≠ "") (hmem : (name, context) ∈ doc.contexts)
    (hdangling : doc.clusters.lookup context.cluster = none)
    (hai : context.authInfo ≠ "") :
    (renameName g.pfx clusterName name,
      ({ cluster := context.cluster, authInfo := g.pfx ++ context.authInfo,
         namespc := context.namespc } : ContextEntry)) ∈
      (g.ApplyPrefix doc clusterName).contexts := by
  rw [applyPrefix_contexts_eq hp]
  have hrw : rewriteContextEntry g.pfx clusterName doc context =
      { cluster := context.cluster, authInfo := g.pfx ++ context.authInfo,
        namespc := context.namespc } := by
    unfold rewriteContextEntry
    rw [hdangling]
    simp [hai]
  rw [← hrw]
  exact List.mem_map_of_mem _ hmem

/-- Witness for C10 at a concrete document with a dangling cluster reference
and a dangling credential reference. -/
theorem applyPrefix_dangling_reference_asymmetry_witness :
    ("prod-ctx1",
      ({ cluster := "ghost", authInfo := "prod-ghostUser", namespc := "" } :
        ContextEntry)) ∈
      ((Generator.mk "prod-").ApplyPrefix docDangling "c1").contexts :=
  applyPrefix_dangling_reference_asymmetry (Generator.mk "prod-") docDangling
    "c1" "ctx1" { cluster := "ghost", authInfo := "ghostUser", namespc := "" }
    (by decide) (by decide) rfl (by decide)

/-- C1 counterexample: merging exactly one document whose rewritten active
context is "prod-c1" yields a merged document whose active context is empty,
not "prod-c1" — MergeConfigs never copies the current context into the
merged configuration, which always keeps the empty current context of
`api.NewConfig()`. -/
theorem mergeConfigs_single_doc_active_context_counterexample :
    Except.map KConfig.currentContext
        ((Generator.mk "prod-").MergeConfigs loadTbl [("c1", "sC1")])
      = Except.ok ""
    ∧ ((Generator.mk "prod-").ApplyPrefix docC1 "c1").currentContext = "prod-c1"
    ∧ ("" : String) ≠ "prod-c1" :=
  ⟨rfl, rfl, by decide⟩

/-- C1 amended: the merged result of MergeConfigs always has an empty
active context, also when exactly one document is merged. -/
theorem mergeConfigs_active_context_always_empty (g : Generator)
    (load : String → Except String KConfig) (input : List (String × String))
    (cfg : KConfig) (h : g.MergeConfigs load input = Except.ok cfg) :
    cfg.currentContext = "" :=
  mergeLoop_currentContext g load input NewConfig cfg h

/-- Witness for the amended C1 at a concrete single-document merge. -/
theorem mergeConfigs_active_context_always_empty_witness :
    mergedC1.currentContext = "" :=
  mergeConfigs_active_context_always_empty (Generator.mk "prod-") loadTbl
    [("c1", "sC1")] mergedC1 rfl

/-- C5 counterexample: when one document of a batch fails to decode, the
whole merge fails with an error instead of succeeding with the entries of
the other, well-formed document — the loop returns the wrapped parse error
for cluster "c2" although the document of cluster "c1" is well-formed. -/
theorem mergeConfigs_parse_error_aborts_counterexample :
    loadTbl "sX" = Except.ok docX
    ∧ (Generator.mk "").MergeConfigs loadTbl [("c1", "sX"), ("c2", "bad")]
      = Except.error
        "failed to parse kubeconfig for cluster c2: failed to parse kubeconfig: boom" :=
  ⟨rfl, rfl⟩

/-- C5 amended: a parse failure of any document of the batch aborts the
whole merge: MergeConfigs returns an error and no merged configuration. -/
theorem mergeConfigs_parse_error_aborts (g : Generator)
    (load : String → Except String KConfig) (input : List (String × String))
    (n s e : String) (hmem : (n, s) ∈ input)
    (hload : load s = Except.error e) :
    mergeFailed (g.MergeConfigs load input) = true := by
  obtain ⟨msg, hmsg⟩ :=
    mergeLoop_error_of_load_error g load input NewConfig n s e hmem hload
  unfold Generator.MergeConfigs
  rw [hmsg]
  rfl

/-- Witness for the amended C5 at a concrete batch with one bad document. -/
theorem mergeConfigs_parse_error_aborts_witness :
    mergeFailed ((Generator.mk "").MergeConfigs loadTbl
      [("c1", "sX"), ("c2", "bad")]) = true :=
  mergeConfigs_parse_error_aborts (Generator.mk "") loadTbl
    [("c1", "sX"), ("c2", "bad")] "c2" "bad" "boom" (by decide) rfl

/-- C2 counterexample: no collision is recorded in the value returned by
MergeConfigs.  Merging two documents that both define cluster "default"
(with different entries) returns a value that is observably identical to
the value returned for the collision-free single-document input consisting
of the later document alone: both are a bare configuration with exactly one
"default" entry per map, holding the later entries, and no warning of any
kind.  A merge whose return carried the claimed warning list would have to
distinguish the two inputs. -/
theorem mergeConfigs_no_collision_warning_counterexample :
    (docDefaultA.clusters.lookup "default").isSome = true
    ∧ (docDefaultB.clusters.lookup "default").isSome = true
    ∧ cvA ≠ cvB
    ∧ Except.map observeDefault
        ((Generator.mk "").MergeConfigs loadTbl [("a", "sA"), ("b", "sB")])
      = Except.map observeDefault
        ((Generator.mk "").MergeConfigs loadTbl [("b", "sB")])
    ∧ Except.map observeDefault
        ((Generator.mk "").MergeConfigs loadTbl [("b", "sB")])
      = Except.ok (1, some cvB,
          1, some { cluster := "default", authInfo := "default", namespc := "nsB" },
          1, some aiB) :=
  ⟨rfl, rfl, by decide, rfl, rfl⟩

/-- C2 amended: for a two-document merge, the colliding key is resolved by
last write wins in each of the three maps — the merged lookup of any key
is the later (rewritten) document's entry when it defines the key and the
earlier document's entry otherwise — and the merge returns only the merged
configuration, with no collision warning. -/
theorem mergeConfigs_last_write_wins (g : Generator)
    (load : String → Except String KConfig) (n1 s1 n2 s2 : String)
    (d1 d2 : KConfig) (k : String)
    (h1 : load s1 = Except.ok d1) (h2 : load s2 = Except.ok d2) :
    Except.map
        (fun m => (m.clusters.lookup k, m.contexts.lookup k, m.authInfos.lookup k))
        (g.MergeConfigs load [(n1, s1), (n2, s2)])
      = Except.ok
        (lastWins ((g.ApplyPrefix d1 n1).clusters.lookup k)
           ((g.ApplyPrefix d2 n2).clusters.lookup k),
         lastWins ((g.ApplyPrefix d1 n1).contexts.lookup k)
           ((g.ApplyPrefix d2 n2).contexts.lookup k),
         lastWins ((g.ApplyPrefix d1 n1).authInfos.lookup k)
           ((g.ApplyPrefix d2 n2).authInfos.lookup k)) := by
  rw [mergeConfigs_two g load n1 s1 n2 s2 d1 d2 h1 h2]
  simp only [Except.map]
  rw [mergeTwoDocs_clusters, mergeTwoDocs_contexts, mergeTwoDocs_authInfos,
    lookup_append_eq_lastWins, lookup_append_eq_lastWins,
    lookup_append_eq_lastWins]

/-- Witness for the amended C2 at the two-document "default" collision,
together with the fact that the merged output has exactly one "default"
cluster entry. -/
theorem mergeConfigs_last_write_wins_witness :
    Except.map
        (fun m => (m.clusters.lookup "default", m.contexts.lookup "default",
          m.authInfos.lookup "default"))
        ((Generator.mk "").MergeConfigs loadTbl [("a", "sA"), ("b", "sB")])
      = Except.ok
        (lastWins (((Generator.mk "").ApplyPrefix docDefaultA "a").clusters.lookup "default")
           (((Generator.mk "").ApplyPrefix docDefaultB "b").clusters.lookup "default"),
         lastWins (((Generator.mk "").ApplyPrefix docDefaultA "a").contexts.lookup "default")
           (((Generator.mk "").ApplyPrefix docDefaultB "b").contexts.lookup "default"),
         lastWins (((Generator.mk "").ApplyPrefix docDefaultA "a").authInfos.lookup "default")
           (((Generator.mk "").ApplyPrefix docDefaultB "b").authInfos.lookup "default"))
    ∧ Except.map (fun m => mapSize m.clusters)
        ((Generator.mk "").MergeConfigs loadTbl [("a", "sA"), ("b", "sB")])
      = Except.ok 1 :=
  ⟨mergeConfigs_last_write_wins (Generator.mk "") loadTbl "a" "sA" "b" "sB"
     docDefaultA docDefaultB "default" rfl rfl, rfl⟩

/-- C4 counterexample: the two input lists are permutations of each other —
two iteration orders of the same mapping from cluster name to document
text — yet the merge produces different outputs: the cluster entry stored
under the colliding key "default" is the one of whichever document is
processed last.  Go map iteration order is unspecified, so two runs on the
same input set can differ. -/
theorem mergeConfigs_order_dependence_counterexample :
    List.Perm [("a", "sA"), ("b", "sB")] [("b", "sB"), ("a", "sA")]
    ∧ Except.map (fun m => m.clusters.lookup "default")
        ((Generator.mk "").MergeConfigs loadTbl [("a", "sA"), ("b", "sB")])
      = Except.ok (some cvB)
    ∧ Except.map (fun m => m.clusters.lookup "default")
        ((Generator.mk "").MergeConfigs loadTbl [("b", "sB"), ("a", "sA")])
      = Except.ok (some cvA)
    ∧ some cvB ≠ some cvA :=
  ⟨by decide, rfl, rfl, by decide⟩

/-- C4 amended: the merge output is a function of the processing order, and
the order matters only through collisions: when the rewritten key sets of
the two documents are disjoint in all three maps, both processing orders
produce observably equal merged configurations. -/
theorem mergeConfigs_order_independent_without_collision (g : Generator)
    (load : String → Except String KConfig) (n1 s1 n2 s2 : String)
    (d1 d2 : KConfig) (k : String)
    (h1 : load s1 = Except.ok d1) (h2 : load s2 = Except.ok d2)
    (hdc : ∀ a ∈ (g.ApplyPrefix d1 n1).clusters.map Prod.fst,
      a ∉ (g.ApplyPrefix d2 n2).clusters.map Prod.fst)
    (hdx : ∀ a ∈ (g.ApplyPrefix d1 n1).contexts.map Prod.fst,
      a ∉ (g.ApplyPrefix d2 n2).contexts.map Prod.fst)
    (hda : ∀ a ∈ (g.ApplyPrefix d1 n1).authInfos.map Prod.fst,
      a ∉ (g.ApplyPrefix d2 n2).authInfos.map Prod.fst) :
    Except.map
        (fun m => (m.kind, m.apiVersion, m.currentContext, m.preferences,
          m.clusters.lookup k, m.contexts.lookup k, m.authInfos.lookup k))
        (g.MergeConfigs load [(n1, s1), (n2, s2)])
      = Except.map
        (fun m => (m.kind, m.apiVersion, m.currentContext, m.preferences,
          m.clusters.lookup k, m.contexts.lookup k, m.authInfos.lookup k))
        (g.MergeConfigs load [(n2, s2), (n1, s1)]) := by
  rw [mergeConfigs_two g load n1 s1 n2 s2 d1 d2 h1 h2,
    mergeConfigs_two g load n2 s2 n1 s1 d2 d1 h2 h1]
  simp only [Except.map]
  rw [mergeTwoDocs_clusters g d1 n1 d2 n2, mergeTwoDocs_clusters g d2 n2 d1 n1,
    mergeTwoDocs_contexts g d1 n1 d2 n2, mergeTwoDocs_contexts g d2 n2 d1 n1,
    mergeTwoDocs_authInfos g d1 n1 d2 n2, mergeTwoDocs_authInfos g d2 n2 d1 n1,
    lookup_append_comm_of_disjoint hdc k, lookup_append_comm_of_disjoint hdx k,
    lookup_append_comm_of_disjoint hda k]
  rfl

/-- Witness for the amended C4 at two concrete documents with disjoint
keys. -/
theorem mergeConfigs_order_independent_without_collision_witness :
    Except.map
        (fun m => (m.kind, m.apiVersion, m.currentContext, m.preferences,
          m.clusters.lookup "x", m.contexts.lookup "x", m.authInfos.lookup "x"))
        ((Generator.mk "").MergeConfigs loadTbl [("x", "sX"), ("y", "sY")])
      = Except.map
        (fun m => (m.kind, m.apiVersion, m.currentContext, m.preferences,
          m.clusters.lookup "x", m.contexts.lookup "x", m.authInfos.lookup "x"))
        ((Generator.mk "").MergeConfigs loadTbl [("y", "sY"), ("x", "sX")]) :=
  mergeConfigs_order_independent_without_collision (Generator.mk "") loadTbl
    "x" "sX" "y" "sY" docX docY "x" rfl rfl (by decide) (by decide) (by decide)

/-- C8 counterexample: validation accepts a token both of whose parts are
empty (the bare separator) and a token containing two separators, in both
cases returning success and splitting at the first separator, although the
claim requires an error for any token that does not split into exactly two
non-empty parts on a single separator. -/
theorem validate_malformed_token_accepted_counterexample :
    cfgColonOnly.validate
      = Except.ok { cfgColonOnly with accessKey := "", secretKey := "" }
    ∧ cfgMultiSep.validate
      = Except.ok { cfgMultiSep with accessKey := "a", secretKey := "b:c" } :=
  ⟨rfl, rfl⟩

/-- C8 amended: for a configuration with a non-empty URL and a non-empty
token, validation fails exactly when the token contains no separator at
all; when the token contains a separator it is split at the first one,
whether or not the parts are empty or the second part contains further
separators, and the parts become the access key and secret key. -/
theorem validate_token_split_characterization (c : AppConfig)
    (hurl : c.rancherURL ≠ "") (htok : c.token ≠ "") :
    c.validate =
      match splitOnceChar ':' c.token.data with
      | none => Except.error "invalid token format, expected access_key:secret_key"
      | some (a, b) =>
        Except.ok { c with
          rancherURL := trimSuffixSlash c.rancherURL,
          accessKey := String.mk a, secretKey := String.mk b } := by
  have h2 : ¬(c.token = "" ∧ (c.accessKey = "" ∨ c.secretKey = "")) :=
    fun h => htok h.1
  unfold AppConfig.validate
  rw [if_neg hurl]
  dsimp only
  rw [if_neg h2, if_pos htok]
  unfold splitN2
  cases hsp : splitOnceChar ':' c.token.data with
  | none => rfl
  | some p =>
    obtain ⟨a, b⟩ := p
    rfl

/-- Witness for the amended C8 at a concrete token with two separators. -/
theorem validate_token_split_characterization_witness :
    cfgMultiSep.validate =
      match splitOnceChar ':' cfgMultiSep.token.data with
      | none => Except.error "invalid token format, expected access_key:secret_key"
      | some (a, b) =>
        Except.ok { cfgMultiSep with
          rancherURL := trimSuffixSlash cfgMultiSep.rancherURL,
          accessKey := String.mk a, secretKey := String.mk b } :=
  validate_token_split_characterization cfgMultiSep (by decide) (by decide)

theorem mapSize_append_of_disjoint {α : Type} {l1 l2 : List (String × α)}
    (h1 : (l1.map Prod.fst).Nodup) (h2 : (l2.map Prod.fst).Nodup)
    (hd : ∀ a ∈ l1.map Prod.fst, a ∉ l2.map Prod.fst) :
    mapSize (l2 ++ l1) = mapSize l1 + mapSize l2 := by
  unfold mapSize
  rw [List.map_append]
  have hnd : ((l2.map Prod.fst) ++ (l1.map Prod.fst)).Nodup := by
    rw [List.nodup_append]
    exact ⟨h2, h1, fun a ha2 ha1 => hd a ha1 ha2⟩
  rw [hnd.dedup, h1.dedup, h2.dedup, List.length_append]
  omega

/-- C9: for two valid input documents with per-document unique names whose
rewritten key sets are disjoint in all three maps, the merge succeeds, each
merged map has as many entries as the two rewritten inputs together, and
every non-empty reference of the merged contexts resolves (the merged
document is again valid). -/
theorem mergeConfigs_disjoint_counts_and_integrity (g : Generator)
    (load : String → Except String KConfig) (n1 s1 n2 s2 : String)
    (d1 d2 : KConfig)
    (h1 : load s1 = Except.ok d1) (h2 : load s2 = Except.ok d2)
    (hv1 : ValidDoc d1) (hv2 : ValidDoc d2)
    (hn1c : (d1.clusters.map Prod.fst).Nodup)
    (hn1x : (d1.contexts.map Prod.fst).Nodup)
    (hn1a : (d1.authInfos.map Prod.fst).Nodup)
    (hn2c : (d2.clusters.map Prod.fst).Nodup)
    (hn2x : (d2.contexts.map Prod.fst).Nodup)
    (hn2a : (d2.authInfos.map Prod.fst).Nodup)
    (hdc : ∀ a ∈ (g.ApplyPrefix d1 n1).clusters.map Prod.fst,
      a ∉ (g.ApplyPrefix d2 n2).clusters.map Prod.fst)
    (hdx : ∀ a ∈ (g.ApplyPrefix d1 n1).contexts.map Prod.fst,
      a ∉ (g.ApplyPrefix d2 n2).contexts.map Prod.fst)
    (hda : ∀ a ∈ (g.ApplyPrefix d1 n1).authInfos.map Prod.fst,
      a ∉ (g.ApplyPrefix d2 n2).authInfos.map Prod.fst) :
    g.MergeConfigs load [(n1, s1), (n2, s2)]
        = Except.ok (mergeTwoDocs g d1 n1 d2 n2)
    ∧ mapSize (mergeTwoDocs g d1 n1 d2 n2).clusters
        = mapSize (g.ApplyPrefix d1 n1).clusters
          + mapSize (g.ApplyPrefix d2 n2).clusters
    ∧ mapSize (mergeTwoDocs g d1 n1 d2 n2).contexts
        = mapSize (g.ApplyPrefix d1 n1).contexts
          + mapSize (g.ApplyPrefix d2 n2).contexts
    ∧ mapSize (mergeTwoDocs g d1 n1 d2 n2).authInfos
        = mapSize (g.ApplyPrefix d1 n1).authInfos
          + mapSize (g.ApplyPrefix d2 n2).authInfos
    ∧ ValidDoc (mergeTwoDocs g d1 n1 d2 n2) := by
  refine ⟨mergeConfigs_two g load n1 s1 n2 s2 d1 d2 h1 h2, ?_, ?_, ?_, ?_⟩
  · rw [mergeTwoDocs_clusters]
    exact mapSize_append_of_disjoint
      (applyPrefix_cluster_keys_nodup g d1 n1 hn1c)
      (applyPrefix_cluster_keys_nodup g d2 n2 hn2c) hdc
  · rw [mergeTwoDocs_contexts]
    exact mapSize_append_of_disjoint
      (applyPrefix_context_keys_nodup g d1 n1 hn1x)
      (applyPrefix_context_keys_nodup g d2 n2 hn2x) hdx
  · rw [mergeTwoDocs_authInfos]
    exact mapSize_append_of_disjoint
      (applyPrefix_authInfo_keys_nodup g d1 n1 hn1a)
      (applyPrefix_authInfo_keys_nodup g d2 n2 hn2a) hda
  · intro p hmem
    rw [mergeTwoDocs_contexts] at hmem
    have hv1' := applyPrefix_valid g d1 n1 hv1
    have hv2' := applyPrefix_valid g d2 n2 hv2
    rcases List.mem_append.mp hmem with hm | hm
    · obtain ⟨hc, ha⟩ := hv2' p hm
      refine ⟨fun hne => ?_, fun hne => ?_⟩
      · rw [mergeTwoDocs_clusters, lookup_isSome_append, hc hne]
        rfl
      · rw [mergeTwoDocs_authInfos, lookup_isSome_append, ha hne]
        rfl
    · obtain ⟨hc, ha⟩ := hv1' p hm
      refine ⟨fun hne => ?_, fun hne => ?_⟩
      · rw [mergeTwoDocs_clusters, lookup_isSome_append, hc hne]
        simp
      · rw [mergeTwoDocs_authInfos, lookup_isSome_append, ha hne]
        simp

/-- Witness for C9 at two concrete valid documents with disjoint keys. -/
theorem mergeConfigs_disjoint_counts_and_integrity_witness :
    (Generator.mk "").MergeConfigs loadTbl [("x", "sX"), ("y", "sY")]
        = Except.ok (mergeTwoDocs (Generator.mk "") docX "x" docY "y")
    ∧ mapSize (mergeTwoDocs (Generator.mk "") docX "x" docY "y").clusters
        = mapSize ((Generator.mk "").ApplyPrefix docX "x").clusters
          + mapSize ((Generator.mk "").ApplyPrefix docY "y").clusters
    ∧ mapSize (mergeTwoDocs (Generator.mk "") docX "x" docY "y").contexts
        = mapSize ((Generator.mk "").ApplyPrefix docX "x").contexts
          + mapSize ((Generator.mk "").ApplyPrefix docY "y").contexts
    ∧ mapSize (mergeTwoDocs (Generator.mk "") docX "x" docY "y").authInfos
        = mapSize ((Generator.mk "").ApplyPrefix docX "x").authInfos
          + mapSize ((Generator.mk "").ApplyPrefix docY "y").authInfos
    ∧ ValidDoc (mergeTwoDocs (Generator.mk "") docX "x" docY "y") :=
  mergeConfigs_disjoint_counts_and_integrity (Generator.mk "") loadTbl
    "x" "sX" "y" "sY" docX docY rfl rfl (by decide) (by decide)
    (by decide) (by decide) (by decide) (by decide) (by decide) (by decide)
    (by decide) (by decide) (by decide)
